import Mathlib

/-!
Verification of the SoupaWhisper dictation control loop (src/dictate.py)
against its natural-language specification.

The Python source is shallowly embedded: pure helpers become Lean
functions; the `Dictation` object's mutable fields become an explicit
state record threaded through `start_recording` / `stop_recording`;
environment-dependent probing (`which pw-record` …) becomes an explicit
environment record passed to the probing functions; subprocess side
effects (clipboard, typing, printing, notifications) become an emitted
list of `Action` values.
-/

namespace SoupaWhisper

/- ### Key Code Resolver (dictate.py lines 67-101) -/

/-- The `KEY_MAP` dict of dictate.py, in source order: key name → evdev
key code (numeric values from linux `input-event-codes.h`, which is what
`evdev.ecodes` exposes). -/
def KEY_MAP : List (String × Nat) :=
  [("f1", 59), ("f2", 60), ("f3", 61), ("f4", 62),
   ("f5", 63), ("f6", 64), ("f7", 65), ("f8", 66),
   ("f9", 67), ("f10", 68), ("f11", 87), ("f12", 88),
   ("scroll_lock", 70), ("pause", 119),
   ("insert", 110), ("home", 102), ("end", 107),
   ("pageup", 104), ("pagedown", 109),
   ("capslock", 58), ("numlock", 69)]

/-- The fragment of the `evdev.ecodes` attribute table that the resolver
can reach: `KEY_<letter>` and `KEY_<digit>` attributes (single-character
hotkeys), plus the codes already named by `KEY_MAP`.  Each listed code has
a single canonical `KEY_*` name in `ecodes.KEY`. -/
def ecodesTable : List (String × Nat) :=
  [("KEY_A", 30), ("KEY_B", 48), ("KEY_C", 46), ("KEY_D", 32),
   ("KEY_E", 18), ("KEY_F", 33), ("KEY_G", 34), ("KEY_H", 35),
   ("KEY_I", 23), ("KEY_J", 36), ("KEY_K", 37), ("KEY_L", 38),
   ("KEY_M", 50), ("KEY_N", 49), ("KEY_O", 24), ("KEY_P", 25),
   ("KEY_Q", 16), ("KEY_R", 19), ("KEY_S", 31), ("KEY_T", 20),
   ("KEY_U", 22), ("KEY_V", 47), ("KEY_W", 17), ("KEY_X", 45),
   ("KEY_Y", 21), ("KEY_Z", 44),
   ("KEY_1", 2), ("KEY_2", 3), ("KEY_3", 4), ("KEY_4", 5),
   ("KEY_5", 6), ("KEY_6", 7), ("KEY_7", 8), ("KEY_8", 9),
   ("KEY_9", 10), ("KEY_0", 11),
   ("KEY_F1", 59), ("KEY_F2", 60), ("KEY_F3", 61), ("KEY_F4", 62),
   ("KEY_F5", 63), ("KEY_F6", 64), ("KEY_F7", 65), ("KEY_F8", 66),
   ("KEY_F9", 67), ("KEY_F10", 68), ("KEY_F11", 87), ("KEY_F12", 88),
   ("KEY_SCROLLLOCK", 70), ("KEY_PAUSE", 119),
   ("KEY_INSERT", 110), ("KEY_HOME", 102), ("KEY_END", 107),
   ("KEY_PAGEUP", 104), ("KEY_PAGEDOWN", 109),
   ("KEY_CAPSLOCK", 58), ("KEY_NUMLOCK", 69)]

/-- Python `str.lower()` on the ASCII key names used here. -/
def pyLower (s : String) : String :=
  String.mk (s.data.map Char.toLower)

/-- Python `str.upper()` on the ASCII key names used here. -/
def pyUpper (s : String) : String :=
  String.mk (s.data.map Char.toUpper)

/-- Python `name.replace("KEY_", "")`: remove every (non-overlapping,
left-to-right) occurrence of `KEY_`. -/
def removeKeyPfx : List Char → List Char
  | 'K' :: 'E' :: 'Y' :: '_' :: rest => removeKeyPfx rest
  | c :: rest => c :: removeKeyPfx rest
  | [] => []

/-- Association-list lookup (Python dict membership / `hasattr`). -/
def alistLookup (table : List (String × Nat)) (k : String) : Option Nat :=
  match table.find? (fun p => p.1 == k) with
  | some p => some p.2
  | none => none

/-- Reverse lookup: first entry carrying a given code. -/
def alistReverse (table : List (String × Nat)) (code : Nat) : Option String :=
  match table.find? (fun p => p.2 == code) with
  | some p => some p.1
  | none => none

/-- `get_hotkey` (dictate.py 78-89): lower-case the name, look it up in
`KEY_MAP`; otherwise, for single-character names, look up the
`KEY_<CHAR>` attribute of `ecodes`; otherwise warn and default to
`KEY_F12`. -/
def get_hotkey (key_name : String) : Nat :=
  let n := pyLower key_name
  match alistLookup KEY_MAP n with
  | some code => code
  | none =>
    if n.length == 1 then
      match alistLookup ecodesTable ("KEY_" ++ pyUpper n) with
      | some code => code
      | none => 88
    else 88

/-- `get_key_name` (dictate.py 92-101): first `KEY_MAP` name carrying the
code, upper-cased; otherwise the canonical `ecodes.KEY` name (falling
back to `KEY_<code>`), with every occurrence of `KEY_` removed. -/
def get_key_name (keycode : Nat) : String :=
  match alistReverse KEY_MAP keycode with
  | some name => pyUpper name
  | none =>
    let name :=
      match alistReverse ecodesTable keycode with
      | some n => n
      | none => "KEY_" ++ toString keycode
    String.mk (removeKeyPfx name.data)

/-- The recognized hotkey-name set: the named keys of `KEY_MAP` plus the
single alphanumeric characters. -/
def recognizedNames : List String :=
  KEY_MAP.map (fun p => p.1) ++
  ["a", "b", "c", "d", "e", "f", "g", "h", "i", "j", "k", "l", "m",
   "n", "o", "p", "q", "r", "s", "t", "u", "v", "w", "x", "y", "z",
   "0", "1", "2", "3", "4", "5", "6", "7", "8", "9"]

/- ### Capture Backend Selector (dictate.py lines 150-179) -/

/-- Tool availability on the host at the moment a `which` probe runs:
the observable outcome of `subprocess.run(["which", tool])`. -/
structure ToolEnv where
  pwRecordAvailable : Bool
  arecordAvailable : Bool
deriving Repr, DecidableEq

/-- `get_audio_recorder` (dictate.py 150-156): probe `which pw-record`,
then `which arecord`; PipeWire wins, ALSA second, else none. -/
def get_audio_recorder (env : ToolEnv) : Option String :=
  if env.pwRecordAvailable then some "pipewire"
  else if env.arecordAvailable then some "alsa"
  else none

/-- `get_record_command` (dictate.py 159-179).  The Python function calls
`get_audio_recorder()` itself on every invocation, so the embedding takes
the probe environment at call time as an argument.  Any probe result
other than `"pipewire"` (including `None`) takes the ALSA else-branch. -/
def get_record_command (env : ToolEnv) (output_file : String) : List String :=
  match get_audio_recorder env with
  | some "pipewire" =>
      ["pw-record", "--format", "s16", "--rate", "16000",
       "--channels", "1", output_file]
  | _ =>
      ["arecord", "-f", "S16_LE", "-r", "16000", "-c", "1", "-t", "wav",
       output_file]

/-- The flag/value pair occurs adjacently in the argv. -/
def hasFlagPair (argv : List String) (flag val : String) : Prop :=
  List.IsInfix [flag, val] argv

/-- The argv requests mono, 16-bit signed PCM at 16 kHz, in either the
pw-record flag syntax or the arecord flag syntax. -/
def encodesMonoS16at16k (argv : List String) : Prop :=
  (hasFlagPair argv "--format" "s16" ∧ hasFlagPair argv "--rate" "16000" ∧
     hasFlagPair argv "--channels" "1") ∨
  (hasFlagPair argv "-f" "S16_LE" ∧ hasFlagPair argv "-r" "16000" ∧
     hasFlagPair argv "-c" "1")

/- ### Transcript assembly (dictate.py line 299) -/

/-- Python `str.strip()`: remove leading and trailing whitespace (the
ASCII whitespace characters suffice for the key names and transcripts
the claims range over). -/
def pyStrip (s : String) : String :=
  String.mk
    (((s.data.dropWhile Char.isWhitespace).reverse.dropWhile
        Char.isWhitespace).reverse)

/-- Python `sep.join(items)`: items interleaved with the separator;
empty for the empty list, the sole item for a singleton. -/
def pyJoin (sep : String) : List String → String
  | [] => ""
  | [x] => x
  | x :: xs => x ++ sep ++ pyJoin sep xs

/-- `text = " ".join(segment.text.strip() for segment in segments)`
(dictate.py 299), as a function of the segment texts. -/
def assembleTranscript (segments : List String) : String :=
  pyJoin " " (segments.map pyStrip)

/-- Spec-side assembly, written from the spec's words: the segments'
texts each stripped of leading/trailing whitespace, joined in emission
order with a single space separator between consecutive segments. -/
def assembleTranscriptSpec : List String → String
  | [] => ""
  | [s] => pyStrip s
  | s :: rest => pyStrip s ++ " " ++ assembleTranscriptSpec rest

/- ### Observable side effects of the pipeline -/

/-- One observable side effect of `stop_recording`: console output, a
desktop notification, a Clipboard Sink invocation (`copy_to_clipboard`)
or a Typing Sink invocation (`type_text`). -/
inductive Action
  | printMsg (msg : String)
  | notifyMsg (title body : String)
  | clipboard (text : String)
  | typeText (text : String)
deriving Repr, DecidableEq

/-- `Dictation.notify` (dictate.py 232-247): a no-op unless the
`notifications` config flag is set. -/
def notifyActs (notificationsCfg : Bool) (title body : String) : List Action :=
  if notificationsCfg then [Action.notifyMsg title body] else []

/-- The truncated success-feedback preview (dictate.py 310):
`text[:100] + ("..." if len(text) > 100 else "")`. -/
def previewText (text : String) : String :=
  String.mk (text.data.take 100) ++ (if text.length > 100 then "..." else "")

/-- The delivery branch of `stop_recording` (dictate.py 301-313), applied
to the assembled transcript: Python's `if text:` is string truthiness,
i.e. non-emptiness. -/
def deliverTranscript (autoTypeCfg notificationsCfg : Bool) (text : String) :
    List Action :=
  if text = "" then
    [Action.printMsg "No speech detected"] ++
      notifyActs notificationsCfg "No speech detected" "Try speaking louder"
  else
    [Action.clipboard text] ++
      (if autoTypeCfg then [Action.typeText text] else []) ++
      [Action.printMsg ("Copied: " ++ text)] ++
      notifyActs notificationsCfg "Copied!" (previewText text)

/- ### The Dictation object (dictate.py 201-364) -/

/-- The mutable fields of the `Dictation` object that the recording
session touches, together with the parts of the world it owns: the set
of temporary files currently existing on disk (`fs`, by numeric id
standing for the unique path `tempfile` allocated) and the set of live
capture child processes (`procs`, by pid).  `nextId` makes freshly
allocated temp-file paths / pids unique. -/
structure DictState where
  recording : Bool
  record_process : Option Nat
  temp_file : Option Nat
  running : Bool
  fs : List Nat
  procs : List Nat
  nextId : Nat
deriving Repr, DecidableEq

/-- The state of a freshly constructed `Dictation` (dictate.py 202-211). -/
def initState : DictState :=
  { recording := false, record_process := none, temp_file := none,
    running := true, fs := [], procs := [], nextId := 0 }

/-- The model loader's terminal status as observed by a call:
`self.model_error` after `model_loaded` is set (`none` = loaded ok). -/
def ModelErr : Type := Option String

/-- `Dictation.start_recording` (dictate.py 249-267): a no-op when
already recording or when the model loader failed; otherwise allocate a
fresh temp file, spawn the capture child, set the recording flag. -/
def start_recording (model_error : Option String) (st : DictState) :
    DictState :=
  if st.recording || model_error.isSome then st
  else
    { st with
      recording := true,
      temp_file := some st.nextId,
      fs := st.nextId :: st.fs,
      record_process := some st.nextId,
      procs := st.nextId :: st.procs,
      nextId := st.nextId + 1 }

/-- `os.unlink` of the current temp file guarded by
`if self.temp_file and os.path.exists(...)` (dictate.py 320-321). -/
def cleanupTempFile (st : DictState) : DictState :=
  match st.temp_file with
  | some t =>
      if st.fs.contains t then
        { st with fs := st.fs.filter (fun x => x ≠ t) }
      else st
  | none => st

/-- The outcome of `self.model.transcribe(...)` followed by consuming
the segment generator: either the list of segment texts in emission
order, or an exception message. -/
def InferenceOutcome : Type := Except String (List String)

/-- `Dictation.stop_recording` (dictate.py 269-321): a no-op unless
recording; otherwise clear the recording flag, terminate and reap the
capture child, wait for the model, short-circuit if the loader failed,
else run inference and deliver, unlinking the temp file in the
`finally` block of the inference `try`.  Returns the new state and the
emitted side effects in order. -/
def stop_recording (model_error : Option String)
    (outcome : Except String (List String))
    (autoTypeCfg notificationsCfg : Bool) (st : DictState) :
    DictState × List Action :=
  if !st.recording then (st, [])
  else
    let st1 := { st with recording := false }
    let st2 :=
      match st1.record_process with
      | some p =>
          { st1 with record_process := none,
                     procs := st1.procs.filter (fun x => x ≠ p) }
      | none => st1
    let acts0 := [Action.printMsg "Transcribing..."] ++
      notifyActs notificationsCfg "Transcribing..." "Processing your speech"
    match model_error with
    | some _ =>
        (st2, acts0 ++ [Action.printMsg "Cannot transcribe: model failed to load"] ++
          notifyActs notificationsCfg "Error" "Model failed to load")
    | none =>
        match outcome with
        | Except.ok segments =>
            (cleanupTempFile st2,
             acts0 ++ deliverTranscript autoTypeCfg notificationsCfg
               (assembleTranscript segments))
        | Except.error e =>
            (cleanupTempFile st2,
             acts0 ++ [Action.printMsg ("Error: " ++ e)] ++
               notifyActs notificationsCfg "Error"
                 (String.mk (e.data.take 50)))

/-- How the operating system records the death of a process. -/
inductive Termination
  | exited (code : Nat)
  | killedBySignal (sig : Nat)
deriving Repr, DecidableEq

/-- Signal number 9. -/
def SIGKILL : Nat := 9

/-- `Dictation.stop` (dictate.py 332-336), reached from the SIGINT
handler: set `running` to false, then `os.kill(os.getpid(), SIGKILL)` —
the process is killed by signal 9 on the spot, abandoning any in-flight
recording or transcription. -/
def Dictation.stop (st : DictState) : DictState × Termination :=
  ({ st with running := false }, Termination.killedBySignal SIGKILL)

/- ### Key events and the main loop (dictate.py 323-364) -/

/-- An evdev input event as `on_key_event` sees it. -/
structure KeyEvent where
  etype : Nat
  code : Nat
  value : Nat
deriving Repr, DecidableEq

/-- `ecodes.EV_KEY`. -/
def EV_KEY : Nat := 1

/-- Everything a `start_recording`/`stop_recording` call observes from
outside the `Dictation` state: the loader status at the time
`model_loaded.wait()` returns, the inference outcome were inference to
run, and the two config flags. -/
structure CallEnv where
  model_error : Option String
  outcome : Except String (List String)
  autoTypeCfg : Bool
  notificationsCfg : Bool

/-- `Dictation.on_key_event` (dictate.py 323-330): press starts,
release stops, repeat (value 2) and other keycodes are ignored. -/
def on_key_event (hotkey : Nat) (env : CallEnv) (st : DictState)
    (ev : KeyEvent) : DictState :=
  if ev.code == hotkey then
    if ev.value == 1 then start_recording env.model_error st
    else if ev.value == 0 then
      (stop_recording env.model_error env.outcome env.autoTypeCfg
        env.notificationsCfg st).1
    else st
  else st

/-- What `device.read()` yields inside one drain pass: a batch of
events, or an `OSError` (hot-unplug). -/
inductive ReadResult
  | ok (events : List KeyEvent)
  | ioError
deriving Repr

/-- The state the main loop (dictate.py 354-364) threads: the
`Dictation` fields plus the set of devices currently registered with
the selector (by numeric handle). -/
structure LoopState where
  dict : DictState
  devices : List Nat
deriving Repr

/-- Draining one ready device (dictate.py 356-364): process its `EV_KEY`
events in arrival order; an `OSError` from `read()` is caught and the
device is unregistered from the selector instead. -/
def drainDevice (hotkey : Nat) (env : CallEnv) (ls : LoopState)
    (dev : Nat) (r : ReadResult) : LoopState :=
  match r with
  | ReadResult.ok events =>
      { ls with dict := (events.foldl
          (fun s ev => if ev.etype == EV_KEY then on_key_event hotkey env s ev
                       else s) ls.dict) }
  | ReadResult.ioError =>
      { ls with devices := ls.devices.filter (fun d => d ≠ dev) }

/-- One pass of the `while self.running` body: the selector reported
`ready` (device, read outcome) pairs; each is drained in order. -/
def selectPass (hotkey : Nat) (env : CallEnv) (ls : LoopState)
    (ready : List (Nat × ReadResult)) : LoopState :=
  ready.foldl (fun acc p => drainDevice hotkey env acc p.1 p.2) ls

/- ### Operation sequences for the session invariant -/

/-- One hotkey-driven call into the recording session, tagged with what
that call observes from its environment. -/
inductive Op
  | start (model_error : Option String)
  | stop (model_error : Option String)
      (outcome : Except String (List String))
      (autoTypeCfg notificationsCfg : Bool)

/-- Apply one operation to the session state. -/
def applyOp (st : DictState) : Op → DictState
  | Op.start e => start_recording e st
  | Op.stop e oc a n => (stop_recording e oc a n st).1

/-- Run a sequence of start/stop calls from a freshly constructed
`Dictation`. -/
def runOps (ops : List Op) : DictState :=
  ops.foldl applyOp initState

/-- The structural session invariant: the live capture children are
exactly the one tracked by `record_process` (if any), and a process is
tracked exactly while the recording flag is set. -/
def SessionInv (st : DictState) : Prop :=
  (match st.record_process with
   | some p => st.procs = [p]
   | none => st.procs = []) ∧
  (st.record_process.isSome ↔ st.recording = true)

/-- A concrete mid-recording state: one capture child (pid 0) running,
one temporary file (id 0) on disk. -/
def leakState : DictState :=
  { recording := true, record_process := some 0, temp_file := some 0,
    running := true, fs := [0], procs := [0], nextId := 1 }

end SoupaWhisper
namespace SoupaWhisper

theorem assembleTranscript_eq_spec (segs : List String) :
    assembleTranscript segs = assembleTranscriptSpec segs := by
  induction segs with
  | nil => rfl
  | cons s rest ih =>
    cases rest with
    | nil => rfl
    | cons t more =>
      show pyStrip s ++ " " ++ assembleTranscript (t :: more) =
        pyStrip s ++ " " ++ assembleTranscriptSpec (t :: more)
      rw [ih]

/-- C4: for every finite sequence of recognized segments, the assembled
transcript equals the segments' texts each stripped of leading/trailing
whitespace, joined in emission order with a single space separator; in
particular `["hello", "world"]` assembles to `"hello world"`. -/
theorem transcript_assembly_correct :
    (∀ segs : List String, assembleTranscript segs = assembleTranscriptSpec segs) ∧
    assembleTranscript ["hello", "world"] = "hello world" :=
  ⟨assembleTranscript_eq_spec, by decide⟩

/-- C7: for every hotkey name in the recognized set (named keys of the
key map and single alphanumeric characters), `get_hotkey` followed by
`get_key_name` yields a display name equal to the original up to casing
and `KEY_` prefix normalization; `"f12"` resolves to keycode 88 whose
display name is `"F12"`. -/
theorem hotkey_name_roundtrip :
    (∀ n ∈ recognizedNames, pyLower (get_key_name (get_hotkey n)) = pyLower n) ∧
    get_hotkey "f12" = 88 ∧ get_key_name 88 = "F12" := by
  refine ⟨by decide, by decide, by decide⟩

theorem hotkey_name_roundtrip_witness :
    "a" ∈ recognizedNames ∧ pyLower (get_key_name (get_hotkey "a")) = pyLower "a" :=
  ⟨by decide, hotkey_name_roundtrip.1 "a" (by decide)⟩

theorem pw_argv_encodes (out : String) :
    encodesMonoS16at16k
      ["pw-record", "--format", "s16", "--rate", "16000", "--channels", "1", out] :=
  Or.inl ⟨⟨["pw-record"], ["--rate", "16000", "--channels", "1", out], rfl⟩,
    ⟨["pw-record", "--format", "s16"], ["--channels", "1", out], rfl⟩,
    ⟨["pw-record", "--format", "s16", "--rate", "16000"], [out], rfl⟩⟩

theorem alsa_argv_encodes (out : String) :
    encodesMonoS16at16k
      ["arecord", "-f", "S16_LE", "-r", "16000", "-c", "1", "-t", "wav", out] :=
  Or.inr ⟨⟨["arecord"], ["-r", "16000", "-c", "1", "-t", "wav", out], rfl⟩,
    ⟨["arecord", "-f", "S16_LE"], ["-c", "1", "-t", "wav", out], rfl⟩,
    ⟨["arecord", "-f", "S16_LE", "-r", "16000"], ["-t", "wav", out], rfl⟩⟩

/-- C8: for every probe environment (hence for both the pipewire-style
and the alsa-style backend) and every output path, the argv built by
`get_record_command` encodes mono, 16-bit signed PCM at 16 kHz, and ends
with the given output path; only the flag syntax differs. -/
theorem record_command_always_mono_s16_16k (env : ToolEnv) (output_file : String) :
    encodesMonoS16at16k (get_record_command env output_file) ∧
    (get_record_command env output_file).getLast? = some output_file := by
  rcases env with ⟨pw, ar⟩
  cases pw <;> cases ar
  · exact ⟨alsa_argv_encodes output_file, rfl⟩
  · exact ⟨alsa_argv_encodes output_file, rfl⟩
  · exact ⟨pw_argv_encodes output_file, rfl⟩
  · exact ⟨pw_argv_encodes output_file, rfl⟩

/-- C6 counterexample: `get_record_command` is not determined by a
descriptor frozen at startup — it re-probes tool availability on every
call, so the same output path yields different argvs under different
call-time environments. -/
theorem record_command_reprobes_each_call :
    get_record_command ⟨true, true⟩ "out.wav" ≠ get_record_command ⟨false, true⟩ "out.wav" := by
  decide

/-- C6 (amended): `get_record_command` probes tool availability itself
on each call (via `get_audio_recorder`); its argv is determined by the
call-time probe result together with the output path. -/
theorem record_command_determined_by_probe (env1 env2 : ToolEnv) (out : String)
    (h : get_audio_recorder env1 = get_audio_recorder env2) :
    get_record_command env1 out = get_record_command env2 out := by
  unfold get_record_command
  rw [h]

theorem record_command_determined_by_probe_witness :
    get_audio_recorder ⟨true, false⟩ = get_audio_recorder ⟨true, true⟩ ∧
    get_record_command ⟨true, false⟩ "a.wav" = get_record_command ⟨true, true⟩ "a.wav" :=
  ⟨by decide, record_command_determined_by_probe ⟨true, false⟩ ⟨true, true⟩ "a.wav" (by decide)⟩

/-- C5 counterexample: on interrupt, `Dictation.stop` terminates the
process with `os.kill(getpid(), SIGKILL)`, so the process exit status is
death-by-signal-9, not exit code 0. -/
theorem interrupt_exit_status_not_zero :
    (Dictation.stop initState).2 ≠ Termination.exited 0 := by decide

/-- C5 (amended): on an external interrupt signal the process
terminates immediately via SIGKILL — no draining: the in-flight
recording state and temp files are left as they are — but the recorded
termination status is killed-by-signal 9, not exit status 0. -/
theorem interrupt_kills_immediately (st : DictState) :
    (Dictation.stop st).2 = Termination.killedBySignal SIGKILL ∧
    (Dictation.stop st).1.running = false ∧
    (Dictation.stop st).1.recording = st.recording ∧
    (Dictation.stop st).1.record_process = st.record_process ∧
    (Dictation.stop st).1.fs = st.fs :=
  ⟨rfl, rfl, rfl, rfl, rfl⟩

theorem sessionInv_init : SessionInv initState := by
  constructor <;> simp [initState]

theorem sessionInv_start (e : Option String) (st : DictState) (h : SessionInv st) :
    SessionInv (start_recording e st) := by
  unfold start_recording
  by_cases hc : (st.recording || e.isSome) = true
  · simp only [hc, if_true]
    exact h
  · have hb : (st.recording || e.isSome) = false := by
      cases hb2 : (st.recording || e.isSome) with
      | false => rfl
      | true => exact absurd hb2 hc
    have hrec : st.recording = false := by
      cases hr : st.recording with
      | false => rfl
      | true => rw [hr] at hb; simp at hb
    obtain ⟨h1, h2⟩ := h
    have hrp : st.record_process = none := by
      cases hp : st.record_process with
      | none => rfl
      | some p =>
        rw [hp] at h2
        simp at h2
        rw [h2] at hrec
        cases hrec
    have hps : st.procs = [] := by rw [hrp] at h1; exact h1
    rw [if_neg hc]
    constructor
    · simp [hps]
    · simp

theorem stop_recording_state (e : Option String) (oc : Except String (List String))
    (a n : Bool) (st : DictState) (hrec : st.recording = true) (p : Nat)
    (hp : st.record_process = some p) :
    ((stop_recording e oc a n st).1.recording = false) ∧
    ((stop_recording e oc a n st).1.record_process = none) ∧
    ((stop_recording e oc a n st).1.procs = st.procs.filter (fun x => x ≠ p)) := by
  unfold stop_recording
  simp only [hrec, Bool.not_true, if_false, hp]
  cases e with
  | some err => simp
  | none =>
    cases oc with
    | ok segs =>
      simp [cleanupTempFile]
      constructor <;> (try constructor) <;> (cases ht : st.temp_file <;> simp [ht] <;> split <;> simp)
    | error msg =>
      simp [cleanupTempFile]
      constructor <;> (try constructor) <;> (cases ht : st.temp_file <;> simp [ht] <;> split <;> simp)

theorem stop_recording_noop (e : Option String) (oc : Except String (List String))
    (a n : Bool) (st : DictState) (hrec : st.recording = false) :
    (stop_recording e oc a n st).1 = st := by
  unfold stop_recording
  simp [hrec]

theorem sessionInv_stop (e : Option String) (oc : Except String (List String))
    (a n : Bool) (st : DictState) (h : SessionInv st) :
    SessionInv ((stop_recording e oc a n st).1) := by
  cases hr : st.recording with
  | false => rw [stop_recording_noop e oc a n st hr]; exact h
  | true =>
    obtain ⟨h1, h2⟩ := h
    have hsome : st.record_process.isSome := h2.mpr hr
    cases hp : st.record_process with
    | none => rw [hp] at hsome; cases hsome
    | some p =>
      obtain ⟨hra, hrb, hrc⟩ := stop_recording_state e oc a n st hr p hp
      constructor
      · rw [hrb]
        rw [hrc]
        rw [hp] at h1
        rw [h1]
        simp
      · rw [hrb, hra]
        simp

theorem sessionInv_applyOp (st : DictState) (op : Op) (h : SessionInv st) :
    SessionInv (applyOp st op) := by
  cases op with
  | start e => exact sessionInv_start e st h
  | stop e oc a n => exact sessionInv_stop e oc a n st h

theorem sessionInv_foldl (ops : List Op) (st : DictState) (h : SessionInv st) :
    SessionInv (ops.foldl applyOp st) := by
  induction ops generalizing st with
  | nil => exact h
  | cons op rest ih => exact ih (applyOp st op) (sessionInv_applyOp st op h)

theorem sessionInv_procs_le_one (st : DictState) (h : SessionInv st) :
    st.procs.length ≤ 1 := by
  obtain ⟨h1, _⟩ := h
  cases hp : st.record_process with
  | none => rw [hp] at h1; rw [h1]; decide
  | some p => rw [hp] at h1; rw [h1]; simp

/-- C2: `start_recording` is a no-op (state returned unchanged: no
child spawned, no temporary file created) when already recording or when
the model loader failed; consequently every sequence of start/stop calls
from the initial state leaves at most one capture child process alive. -/
theorem start_noop_and_single_child :
    (∀ (st : DictState) (e : Option String),
        st.recording = true ∨ e.isSome = true → start_recording e st = st) ∧
    (∀ ops : List Op, (runOps ops).procs.length ≤ 1) := by
  constructor
  · intro st e h
    unfold start_recording
    have hc : (st.recording || e.isSome) = true := by
      rcases h with h | h <;> simp [h]
    simp [hc]
  · intro ops
    exact sessionInv_procs_le_one _ (sessionInv_foldl ops initState sessionInv_init)

theorem start_noop_and_single_child_witness :
    ((initState.recording = true ∨ (some "err" : Option String).isSome = true) ∧
      start_recording (some "err") initState = initState) ∧
    (runOps [Op.start none, Op.start none]).procs.length ≤ 1 :=
  ⟨⟨Or.inr rfl, start_noop_and_single_child.1 initState (some "err") (Or.inr rfl)⟩,
   start_noop_and_single_child.2 [Op.start none, Op.start none]⟩

theorem stop_recording_idle (e : Option String) (oc : Except String (List String))
    (a n : Bool) (st : DictState) (hrec : st.recording = true) :
    (stop_recording e oc a n st).1.recording = false ∧
    (stop_recording e oc a n st).1.record_process = none := by
  unfold stop_recording cleanupTempFile
  simp only [hrec, Bool.not_true, Bool.false_eq_true, if_false]
  cases hp : st.record_process <;> cases e <;> cases oc <;>
    simp <;> (try split) <;> (try simp) <;> (try split) <;> (try simp)

theorem stop_recording_deletes (oc : Except String (List String))
    (a n : Bool) (st : DictState) (hrec : st.recording = true)
    (t : Nat) (ht : st.temp_file = some t) :
    t ∉ (stop_recording none oc a n st).1.fs := by
  unfold stop_recording cleanupTempFile
  simp only [hrec, Bool.not_true, Bool.false_eq_true, if_false]
  cases hp : st.record_process <;> cases oc <;>
    simp [ht] <;> (try split) <;>
      simp_all [List.mem_filter, List.elem_iff]


/-- C1 counterexample: `stop_recording` called while recording with
the model loader in the failed state returns before the cleanup block:
the temporary file (id 0) is still on disk afterwards. -/
theorem stop_model_failed_leaks_temp_file :
    (stop_recording (some "model failed") (Except.ok ["hello"]) true true
        leakState).1.fs = [0] ∧
    0 ∈ (stop_recording (some "model failed") (Except.ok ["hello"]) true true
        leakState).1.fs := by
  constructor <;> decide

/-- C1 (amended): every `stop_recording` from the Recording state
returns to Idle (recording flag false, no capture child handle); the
temporary audio file is deleted whenever the model loader did not fail
(successful transcript, no-speech result, or caught inference
exception), but in the model-failed short-circuit it is leaked. -/
theorem stop_cleans_and_idles (e : Option String) (oc : Except String (List String))
    (a n : Bool) (st : DictState) (hrec : st.recording = true) :
    (stop_recording e oc a n st).1.recording = false ∧
    (stop_recording e oc a n st).1.record_process = none ∧
    (e = none → ∀ t, st.temp_file = some t →
      t ∉ (stop_recording e oc a n st).1.fs) := by
  refine ⟨(stop_recording_idle e oc a n st hrec).1,
    (stop_recording_idle e oc a n st hrec).2, ?_⟩
  intro he t ht
  subst he
  exact stop_recording_deletes oc a n st hrec t ht

theorem stop_cleans_and_idles_witness :
    leakState.recording = true ∧
    (stop_recording none (Except.ok ["hello"]) true true leakState).1.recording = false ∧
    (stop_recording none (Except.ok ["hello"]) true true leakState).1.record_process = none ∧
    0 ∉ (stop_recording none (Except.ok ["hello"]) true true leakState).1.fs := by
  have h := stop_cleans_and_idles none (Except.ok ["hello"]) true true leakState rfl
  exact ⟨rfl, h.1, h.2.1, h.2.2 rfl 0 rfl⟩

theorem stop_recording_acts_ok (segs : List String) (a n : Bool) (st : DictState)
    (hrec : st.recording = true) :
    (stop_recording none (Except.ok segs) a n st).2 =
      ([Action.printMsg "Transcribing..."] ++
        notifyActs n "Transcribing..." "Processing your speech") ++
      deliverTranscript a n (assembleTranscript segs) := by
  unfold stop_recording
  simp [hrec]

theorem previewText_short (text : String) (h : text.length ≤ 100) :
    previewText text = text := by
  unfold previewText
  rw [if_neg (by omega : ¬ text.length > 100)]
  rw [List.take_of_length_le h]
  simp

theorem previewText_long (text : String) (h : 100 < text.length) :
    previewText text = String.mk (text.data.take 100) ++ "..." := by
  unfold previewText
  rw [if_pos (by omega : text.length > 100)]

/-- C3: sink fan-out policy — an empty assembled transcript reports
"no speech detected" and invokes no sink; a non-empty transcript goes to
the Clipboard Sink unconditionally and to the Typing Sink iff auto_type
is enabled, with success feedback showing the first 100 characters plus
an ellipsis marker exactly when the text is longer than 100 characters. -/
theorem pipeline_sink_fanout (segs : List String) (a n : Bool) (st : DictState)
    (hrec : st.recording = true) :
    (assembleTranscript segs = "" →
      (∀ t, Action.clipboard t ∉ (stop_recording none (Except.ok segs) a n st).2) ∧
      (∀ t, Action.typeText t ∉ (stop_recording none (Except.ok segs) a n st).2) ∧
      Action.printMsg "No speech detected" ∈
        (stop_recording none (Except.ok segs) a n st).2) ∧
    (assembleTranscript segs ≠ "" →
      Action.clipboard (assembleTranscript segs) ∈
        (stop_recording none (Except.ok segs) a n st).2 ∧
      (a = true → Action.typeText (assembleTranscript segs) ∈
        (stop_recording none (Except.ok segs) a n st).2) ∧
      (a = false → ∀ t, Action.typeText t ∉
        (stop_recording none (Except.ok segs) a n st).2) ∧
      (n = true → (assembleTranscript segs).length ≤ 100 →
        Action.notifyMsg "Copied!" (assembleTranscript segs) ∈
          (stop_recording none (Except.ok segs) a n st).2) ∧
      (n = true → 100 < (assembleTranscript segs).length →
        Action.notifyMsg "Copied!"
            (String.mk ((assembleTranscript segs).data.take 100) ++ "...") ∈
          (stop_recording none (Except.ok segs) a n st).2)) := by
  rw [stop_recording_acts_ok segs a n st hrec]
  constructor
  · intro hempty
    rw [hempty]
    unfold deliverTranscript notifyActs
    cases n <;> simp
  · intro hne
    unfold deliverTranscript
    rw [if_neg hne]
    refine ⟨?_, ?_, ?_, ?_, ?_⟩
    · unfold notifyActs; cases n <;> cases a <;> simp
    · intro ha; subst ha; unfold notifyActs; cases n <;> simp
    · intro ha t; subst ha; unfold notifyActs; cases n <;> simp
    · intro hn hlen
      subst hn
      rw [previewText_short (assembleTranscript segs) hlen]
      unfold notifyActs
      cases a <;> simp
    · intro hn hlen
      subst hn
      rw [previewText_long (assembleTranscript segs) hlen]
      unfold notifyActs
      cases a <;> simp

theorem pipeline_sink_fanout_witness :
    leakState.recording = true ∧
    Action.clipboard "hello world" ∈
      (stop_recording none (Except.ok ["hello", "world"]) true true leakState).2 := by
  have h := (pipeline_sink_fanout ["hello", "world"] true true leakState rfl).2 (by decide)
  have he : assembleTranscript ["hello", "world"] = "hello world" := by decide
  exact ⟨rfl, he ▸ h.1⟩

theorem assembleSpec_all_ws (segs : List String) (h : ∀ s ∈ segs, pyStrip s = "") :
    (assembleTranscriptSpec segs).data = List.replicate (segs.length - 1) ' ' := by
  induction segs with
  | nil => rfl
  | cons s rest ih =>
    cases rest with
    | nil =>
      have hs : pyStrip s = "" := h s (by simp)
      show (pyStrip s).data = _
      rw [hs]
      rfl
    | cons t more =>
      have hs : pyStrip s = "" := h s (by simp)
      have ihh := ih (fun x hx => h x (by simp [hx]))
      show (pyStrip s ++ " " ++ assembleTranscriptSpec (t :: more)).data = _
      rw [String.data_append, String.data_append, hs, ihh]
      have h1 : ("" : String).data = [] := rfl
      have h2 : (" " : String).data = [' '] := rfl
      rw [h1, h2]
      simp [List.replicate_succ]

theorem transcript_all_ws_data (segs : List String) (h : ∀ s ∈ segs, pyStrip s = "") :
    (assembleTranscript segs).data = List.replicate (segs.length - 1) ' ' := by
  rw [assembleTranscript_eq_spec]
  exact assembleSpec_all_ws segs h

theorem copiedMsg_ne_nospeech (t : String) :
    "Copied: " ++ t ≠ "No speech detected" := by
  intro h
  have hd := congrArg String.data h
  rw [String.data_append] at hd
  have h1 : ("Copied: " : String).data = ['C', 'o', 'p', 'i', 'e', 'd', ':', ' '] := rfl
  have h2 : ("No speech detected" : String).data =
      ['N', 'o', ' ', 's', 'p', 'e', 'e', 'c', 'h', ' ',
       'd', 'e', 't', 'e', 'c', 't', 'e', 'd'] := rfl
  rw [h1, h2] at hd
  simp at hd

/-- C10: emptiness is decided by truthiness of the joined string: two
or more segments that all strip to empty assemble to a non-empty
all-whitespace string which is delivered to the clipboard (and typing
sink when auto_type is on), while zero segments or at most one all-empty
segment assemble to the empty string and trigger "no speech detected". -/
theorem whitespace_segments_truthiness (segs : List String) (a n : Bool)
    (st : DictState) (hrec : st.recording = true)
    (hall : ∀ s ∈ segs, pyStrip s = "") :
    (2 ≤ segs.length →
      assembleTranscript segs ≠ "" ∧
      (∀ c ∈ (assembleTranscript segs).data, c = ' ') ∧
      Action.clipboard (assembleTranscript segs) ∈
        (stop_recording none (Except.ok segs) a n st).2 ∧
      (a = true → Action.typeText (assembleTranscript segs) ∈
        (stop_recording none (Except.ok segs) a n st).2) ∧
      Action.printMsg "No speech detected" ∉
        (stop_recording none (Except.ok segs) a n st).2) ∧
    (segs.length ≤ 1 →
      assembleTranscript segs = "" ∧
      (∀ t, Action.clipboard t ∉ (stop_recording none (Except.ok segs) a n st).2) ∧
      Action.printMsg "No speech detected" ∈
        (stop_recording none (Except.ok segs) a n st).2) := by
  have hdata := transcript_all_ws_data segs hall
  constructor
  · intro h2
    have hne : assembleTranscript segs ≠ "" := by
      intro he
      have hlen := congrArg List.length hdata
      rw [he] at hlen
      simp at hlen
      omega
    refine ⟨hne, ?_, ?_, ?_, ?_⟩
    · intro c hc
      rw [hdata] at hc
      exact List.eq_of_mem_replicate hc
    · rw [stop_recording_acts_ok segs a n st hrec]
      unfold deliverTranscript
      rw [if_neg hne]
      unfold notifyActs
      cases a <;> cases n <;> simp
    · intro ha
      subst ha
      rw [stop_recording_acts_ok segs true n st hrec]
      unfold deliverTranscript
      rw [if_neg hne]
      unfold notifyActs
      cases n <;> simp
    · rw [stop_recording_acts_ok segs a n st hrec]
      unfold deliverTranscript
      rw [if_neg hne]
      unfold notifyActs
      cases a <;> cases n <;>
        simp [copiedMsg_ne_nospeech (assembleTranscript segs),
          Ne.symm (copiedMsg_ne_nospeech (assembleTranscript segs))]
  · intro h1
    have hemp : assembleTranscript segs = "" := by
      apply String.ext
      rw [hdata]
      have : segs.length - 1 = 0 := by omega
      rw [this]
      rfl
    refine ⟨hemp, ?_, ?_⟩
    · intro t
      rw [stop_recording_acts_ok segs a n st hrec, hemp]
      unfold deliverTranscript
      rw [if_pos rfl]
      unfold notifyActs
      cases n <;> simp
    · rw [stop_recording_acts_ok segs a n st hrec, hemp]
      unfold deliverTranscript
      rw [if_pos rfl]
      unfold notifyActs
      cases n <;> simp

theorem whitespace_segments_truthiness_witness :
    leakState.recording = true ∧
    (∀ s ∈ (["  ", " "] : List String), pyStrip s = "") ∧
    2 ≤ (["  ", " "] : List String).length ∧
    Action.clipboard (assembleTranscript ["  ", " "]) ∈
      (stop_recording none (Except.ok ["  ", " "]) true true leakState).2 := by
  have h := (whitespace_segments_truthiness ["  ", " "] true true leakState rfl
    (by decide)).1 (by decide)
  exact ⟨rfl, by decide, by decide, h.2.2.1⟩

theorem start_recording_running (e : Option String) (st : DictState) :
    (start_recording e st).running = st.running := by
  unfold start_recording
  split <;> rfl

theorem stop_recording_running (e : Option String) (oc : Except String (List String))
    (a n : Bool) (st : DictState) :
    ((stop_recording e oc a n st).1).running = st.running := by
  unfold stop_recording cleanupTempFile
  cases hr : st.recording <;> cases hp : st.record_process <;> cases e <;> cases oc <;>
    simp <;> (try split) <;> (try simp) <;> (try split) <;> (try simp)

theorem on_key_event_running (hk : Nat) (env : CallEnv) (st : DictState)
    (ev : KeyEvent) : (on_key_event hk env st ev).running = st.running := by
  unfold on_key_event
  split
  · split
    · exact start_recording_running _ _
    · split
      · exact stop_recording_running _ _ _ _ _
      · rfl
  · rfl

theorem events_fold_running (hk : Nat) (env : CallEnv) (events : List KeyEvent)
    (st : DictState) :
    (events.foldl (fun s ev => if ev.etype == EV_KEY then on_key_event hk env s ev
      else s) st).running = st.running := by
  induction events generalizing st with
  | nil => rfl
  | cons ev rest ih =>
    rw [List.foldl_cons, ih]
    split
    · exact on_key_event_running _ _ _ _
    · rfl

theorem drainDevice_running (hk : Nat) (env : CallEnv) (ls : LoopState)
    (dev : Nat) (r : ReadResult) :
    (drainDevice hk env ls dev r).dict.running = ls.dict.running := by
  cases r with
  | ok events => exact events_fold_running hk env events ls.dict
  | ioError => rfl

theorem selectPass_running (hk : Nat) (env : CallEnv) (ls : LoopState)
    (ready : List (Nat × ReadResult)) :
    (selectPass hk env ls ready).dict.running = ls.dict.running := by
  induction ready generalizing ls with
  | nil => rfl
  | cons p rest ih =>
    show (selectPass hk env (drainDevice hk env ls p.1 p.2) rest).dict.running = _
    rw [ih]
    exact drainDevice_running hk env ls p.1 p.2

/-- C9: in the main loop, a device read failing with an I/O error
unregisters that device and the pass continues with the remaining
devices; no drain pass ever clears the `running` flag, and an empty
ready set leaves the loop state unchanged (idle until shutdown). -/
theorem device_error_recovery (hk : Nat) (env : CallEnv) (ls : LoopState)
    (ready : List (Nat × ReadResult)) (dev : Nat) :
    (selectPass hk env ls ready).dict.running = ls.dict.running ∧
    selectPass hk env ls ((dev, ReadResult.ioError) :: ready) =
      selectPass hk env
        { dict := ls.dict, devices := ls.devices.filter (fun d => d ≠ dev) } ready ∧
    selectPass hk env ls [] = ls :=
  ⟨selectPass_running hk env ls ready, rfl, rfl⟩

end SoupaWhisper
